import Mathlib

/-!
Verification development for the csv-to-supabase importer (`src/main.py`).

The development shallowly embeds the record-normalization and fault-tolerant
batch-load pipeline of `SongDataImporter`:

* `cleanNumber`   embeds `SongDataImporter.clean_number`  (main.py lines 37-56),
* `cleanValue`    embeds `SongDataImporter.clean_value`   (main.py lines 58-73),
* `prepareSongData` embeds `SongDataImporter.prepare_song_data` (lines 75-102),
* `saveFailedRecords` embeds `SongDataImporter.save_failed_records` (lines 141-172),
* `importSongs`   embeds `SongDataImporter.import_songs`  (lines 174-229).

Python scalars held in a pandas cell are embedded as `PyVal`: an explicit
null (`None` or the result of `df.replace({np.nan: None})`), a `float` NaN,
a text value, an `int`, or a finite `float`.  Finite floats are embedded as
exact rationals; IEEE rounding is outside the abstraction, so theorems about
numeric string parsing are stated below `2^53` where binary64 arithmetic on
integers is exact.  Python exceptions are embedded as `Except PErr`, where
`PErrKind` records the dynamic class used by the `except` filters in the
source (`except (ValueError, TypeError)` in `clean_number`, the bare
`except Exception` in `import_songs`).
-/

set_option autoImplicit false

deriving instance DecidableEq for Except

namespace CsvToSupabase

/-- Embedded Python scalar cell value. `vNaN` is the float NaN sentinel
(`pd.isna` true); `vFloat` carries a finite float as an exact rational. -/
inductive PyVal where
  | vNone : PyVal
  | vNaN : PyVal
  | vStr (s : String) : PyVal
  | vInt (n : Int) : PyVal
  | vFloat (q : Rat) : PyVal
  deriving DecidableEq, Repr

/-- Dynamic class of an embedded Python exception, as discriminated by the
`except` clauses of the source. -/
inductive PErrKind where
  | valueError
  | typeError
  | overflowError
  | keyError
  | unboundLocalError
  | other
  deriving DecidableEq, Repr

/-- An embedded Python exception: its class together with `str(e)`. -/
structure PErr where
  kind : PErrKind
  msg : String
  deriving DecidableEq, Repr

/-- Message of the `UnboundLocalError` raised when the `except` handler of
`import_songs` evaluates the f-string `f"Datos problemáticos: {song_data}"`
while the local `song_data` has never been assigned. -/
def unboundLocalSongData : PErr :=
  ⟨.unboundLocalError, "local variable song_data referenced before assignment"⟩

/-- Embeds `str(KeyError(k))`. CPython renders it as the repr of the key
(the key surrounded by quote characters); the exact rendering is immaterial
to every claim, only that it is the KeyError message for key `k`. -/
def keyErrMsg (k : String) : String := "KeyError: " ++ k

def keyError (k : String) : PErr := ⟨.keyError, keyErrMsg k⟩

/-- Embeds `pd.isna(value)` on a scalar cell: true exactly on `None` and NaN. -/
def pyIsNA : PyVal → Bool
  | .vNone => true
  | .vNaN => true
  | _ => false

/-- Embeds the Python comparison `value == ""` (false on every non-text value). -/
def pyEqEmptyStr : PyVal → Bool
  | .vStr s => s = ""
  | _ => false

/-- Embeds Python `str(value)`.  The rendering of a finite float is
abstracted as the rational's `toString`; no claim depends on it (it is
reachable only through the `album_date` branch of `prepare_song_data`). -/
def pyStr : PyVal → String
  | .vNone => "None"
  | .vNaN => "nan"
  | .vStr s => s
  | .vInt n => toString n
  | .vFloat q => toString q

/-- Drop leading and trailing whitespace from a character list; the
whitespace set is Lean's ASCII `Char.isWhitespace` (Python's `str.strip`
and `float` additionally strip some Unicode space characters, which no
claim exercises). -/
def trimBoth (l : List Char) : List Char :=
  ((l.dropWhile Char.isWhitespace).reverse.dropWhile Char.isWhitespace).reverse

/-- Embeds Python `str.strip()`. -/
def pyStrip (s : String) : String := ⟨trimBoth s.data⟩

/-- Remove every occurrence of the character `c`: Python's
`str.replace(c, "")` for a single-character pattern. -/
def removeChar (c : Char) (s : String) : String :=
  ⟨s.data.filter fun d => decide (d ≠ c)⟩

/-- Embeds `value.replace(",", "").replace(" ", "")` from `clean_number`
(each call removes every occurrence of its one-character pattern). -/
def stripCommasSpaces (s : String) : String := removeChar ' ' (removeChar ',' s)

/-- Result of Python `float(text)`: a finite value (represented exactly as
the decimal `m * 10 ^ e`), a signed infinity, or NaN. -/
inductive PFloat where
  | fin (m : Int) (e : Int) : PFloat
  | infF (neg : Bool) : PFloat
  | nanF : PFloat
  deriving DecidableEq, Repr

/-- Value of a list of decimal digit characters. -/
def digitsToNat (l : List Char) : Nat :=
  l.foldl (fun a c => a * 10 + (c.toNat - 48)) 0

/-- Split a list at the first character satisfying `p`; the second component
is `none` when no character satisfies `p`. -/
def splitOnceBy (p : Char → Bool) : List Char → List Char × Option (List Char)
  | [] => ([], none)
  | c :: cs =>
    if p c then ([], some cs)
    else
      let r := splitOnceBy p cs
      (c :: r.1, r.2)

/-- Consume one optional leading sign; returns (isNegative, rest). -/
def takeSign : List Char → Bool × List Char
  | [] => (false, [])
  | c :: cs =>
    if c = '+' then (false, cs)
    else if c = '-' then (true, cs)
    else (false, c :: cs)

/-- Decimal digit test (ASCII `0`-`9`). -/
def isDig (c : Char) : Bool := 48 ≤ c.toNat && c.toNat ≤ 57

def allDigits (l : List Char) : Bool := l.all isDig

def isExpChar (c : Char) : Bool := c = 'e' || c = 'E'

/-- Parse the mantissa `digits[.digits]` of a Python float literal: its
digit value together with the fraction length (at least one digit required
overall). -/
def parseMantissa (l : List Char) : Option (Nat × Nat) :=
  let r := splitOnceBy (fun c => decide (c = '.')) l
  let ip := r.1
  let fp := r.2.getD []
  if (ip ++ fp).isEmpty || !allDigits (ip ++ fp) then none
  else some (digitsToNat (ip ++ fp), fp.length)

/-- Parse the exponent part (after `e`/`E`) of a Python float literal. -/
def parseExpPart (l : List Char) : Option Int :=
  let r := takeSign l
  if r.2.isEmpty || !allDigits r.2 then none
  else some (if r.1 then -(digitsToNat r.2 : Int) else (digitsToNat r.2 : Int))

/-- Embeds Python `float(text)`.  Accepts optional surrounding whitespace, an
optional sign, the tokens `inf`/`infinity`/`nan` (case-insensitive), or a
decimal literal `digits[.digits][(e|E)[sign]digits]`, evaluated exactly as a
decimal `m * 10 ^ e`.  `none` embeds `float` raising `ValueError`.  Not
modelled (no claim exercises them): digit-group underscores, non-ASCII
digits, and IEEE rounding/overflow of finite literals. -/
def pyFloatOfString (s : String) : Option PFloat :=
  let t := trimBoth s.data
  let r := takeSign t
  let neg := r.1
  let u := r.2
  let lu := u.map Char.toLower
  if lu = "inf".data || lu = "infinity".data then some (.infF neg)
  else if lu = "nan".data then some .nanF
  else
    let me := splitOnceBy isExpChar u
    match parseMantissa me.1 with
    | none => none
    | some md =>
      let sm : Int := if neg then -(md.1 : Int) else (md.1 : Int)
      match me.2 with
      | none => some (.fin sm (-(md.2 : Int)))
      | some ep =>
        match parseExpPart ep with
        | none => none
        | some e => some (.fin sm (e - (md.2 : Int)))

/-- Embeds Python `int(x)` on the finite float `m * 10 ^ e`: truncation
toward zero (exact when `e ≥ 0`, truncating division otherwise). -/
def decTrunc (m e : Int) : Int :=
  if 0 ≤ e then m * ((10 ^ e.toNat : Nat) : Int)
  else Int.tdiv m ((10 ^ (-e).toNat : Nat) : Int)

/-- Embeds Python `int(q)` on a native finite float: truncation toward zero. -/
def ratTrunc (q : Rat) : Int := Int.tdiv q.num (q.den : Int)

/-- Embeds `SongDataImporter.clean_number` (main.py lines 37-56).

```python
if pd.isna(value) or value == "" or value is None:
    return None
try:
    if isinstance(value, str):
        cleaned = value.replace(",", "").replace(" ", "")
        return int(float(cleaned))
    elif isinstance(value, (int, float, np.number)):
        return int(value)
    return None
except (ValueError, TypeError):
    logger.warning(...)
    return None
```

Exception-to-value translation: `float(cleaned)` raising `ValueError`
(parse failure) and `int(float(...))` raising `ValueError` on NaN are both
caught by the `except (ValueError, TypeError)` clause, hence embed as
`.ok none`; `int` of an infinite float raises `OverflowError`, which that
clause does NOT catch, hence embeds as `.error`. The `value is None` test
is subsumed by `pd.isna`. -/
def cleanNumber (value : PyVal) : Except PErr (Option Int) :=
  if pyIsNA value || pyEqEmptyStr value then .ok none
  else
    match value with
    | .vStr s =>
      let cleaned := stripCommasSpaces s
      match pyFloatOfString cleaned with
      | none => .ok none
      | some (.fin m e) => .ok (some (decTrunc m e))
      | some .nanF => .ok none
      | some (.infF _) => .error ⟨.overflowError, "cannot convert float infinity to integer"⟩
    | .vInt n => .ok (some n)
    | .vFloat q => .ok (some (ratTrunc q))
    | .vNaN => .ok none
    | .vNone => .ok none

/-- Embeds the `clean_number` result being returned from `clean_value`:
`Optional[int]` as a cell value. -/
def ofNumOpt : Option Int → PyVal
  | none => .vNone
  | some n => .vInt n

/-- The non-`youtube_views` body of `clean_value` (main.py lines 69-73):
finite floats pass through (`np.isnan` is false on them; NaN would return
`None`, but NaN is already consumed by the `pd.isna` guard), ints pass
through, and anything else becomes `str(value).strip()`. -/
def nvClean : PyVal → PyVal
  | .vFloat q => .vFloat q
  | .vNaN => .vNone
  | .vInt n => .vInt n
  | v => .vStr (pyStrip (pyStr v))

/-- Embeds `SongDataImporter.clean_value` (main.py lines 58-73).

```python
if pd.isna(value) or value == "" or value is None:
    return None
if field_name == "youtube_views":
    return self.clean_number(value)
if isinstance(value, (float, np.float64)):
    return float(value) if not np.isnan(value) else None
if isinstance(value, (int, np.int64)):
    return int(value)
return str(value).strip()
```

The returned `PyVal` is `.vNone` exactly when Python would return `None`. -/
def cleanValue (value : PyVal) (fieldName : String) : Except PErr PyVal :=
  if pyIsNA value || pyEqEmptyStr value then .ok .vNone
  else if fieldName = "youtube_views" then Except.map ofNumOpt (cleanNumber value)
  else .ok (nvClean value)

/-- A raw source row with the 17 columns that `prepare_song_data` looks up
(the shape produced by `read_csv`; field order is the column order used by
the source).  Modelling the row as a structure makes every required column
present, which is the regime of all claims (a missing column would raise
`KeyError` out of the lookups in `prepare_song_data`). -/
structure RawRow where
  title : PyVal
  artist : PyVal
  average_score : PyVal
  score_2024_10 : PyVal
  score_2024_q3 : PyVal
  score_2024_q2 : PyVal
  score_2024_q1 : PyVal
  score_2023 : PyVal
  album_date : PyVal
  language : PyVal
  genre : PyVal
  playlists_name : PyVal
  energy : PyVal
  youtube_url : PyVal
  youtube_views : PyVal
  spotify_url : PyVal
  album_name : PyVal
  deriving DecidableEq, Repr

/-- A Python dict of cell values, as an ordered association list. -/
abbrev SongRecord := List (String × PyVal)

/-- Total companion of `cleanValue` on a field other than `youtube_views`
(where `clean_value` cannot raise): guard, then the type-directed branches. -/
def cleanValueT (value : PyVal) : PyVal :=
  if pyIsNA value || pyEqEmptyStr value then .vNone else nvClean value

/-- The `album_date` entry of `prepare_song_data` (main.py lines 88-90):
`str(row["album_date"]) if not pd.isna(row["album_date"]) else None`. -/
def albumDateVal (row : RawRow) : PyVal :=
  if pyIsNA row.album_date then PyVal.vNone else PyVal.vStr (pyStr row.album_date)

/-- The 17-entry dict built by `prepare_song_data` before the null-drop
filter, given the already-computed `youtube_views` cleaning result `yv`.
Used to state what `prepareSongData` returns when `clean_value` does not
raise. -/
def songEntries (row : RawRow) (yv : PyVal) : SongRecord :=
  [("title", cleanValueT row.title), ("artist", cleanValueT row.artist),
   ("average_score", cleanValueT row.average_score),
   ("score_2024_10", cleanValueT row.score_2024_10),
   ("score_2024_q3", cleanValueT row.score_2024_q3),
   ("score_2024_q2", cleanValueT row.score_2024_q2),
   ("score_2024_q1", cleanValueT row.score_2024_q1),
   ("score_2023", cleanValueT row.score_2023),
   ("album_date", albumDateVal row), ("language", cleanValueT row.language),
   ("genre", cleanValueT row.genre), ("playlists_name", cleanValueT row.playlists_name),
   ("energy", cleanValueT row.energy), ("youtube_url", cleanValueT row.youtube_url),
   ("youtube_views", yv), ("spotify_url", cleanValueT row.spotify_url),
   ("album_name", cleanValueT row.album_name)]

/-- Embeds `row.to_dict()` (main.py line 205): the row's 17 raw fields in
column order. -/
def rawFields (row : RawRow) : SongRecord :=
  [("title", row.title), ("artist", row.artist),
   ("average_score", row.average_score), ("score_2024_10", row.score_2024_10),
   ("score_2024_q3", row.score_2024_q3), ("score_2024_q2", row.score_2024_q2),
   ("score_2024_q1", row.score_2024_q1), ("score_2023", row.score_2023),
   ("album_date", row.album_date), ("language", row.language),
   ("genre", row.genre), ("playlists_name", row.playlists_name),
   ("energy", row.energy), ("youtube_url", row.youtube_url),
   ("youtube_views", row.youtube_views), ("spotify_url", row.spotify_url),
   ("album_name", row.album_name)]

/-- Embeds `SongDataImporter.prepare_song_data` (main.py lines 75-102): build
the 17-entry dict, cleaning each field (with `album_date` special-cased to
`str(row["album_date"]) if not pd.isna(row["album_date"]) else None`), then
drop every key whose value is `None`.  The only fallible call is
`clean_value(..., "youtube_views")`; the `do` chain mirrors Python's
left-to-right evaluation of the dict display. -/
def prepareSongData (row : RawRow) : Except PErr SongRecord := do
  let title ← cleanValue row.title "title"
  let artist ← cleanValue row.artist "artist"
  let average_score ← cleanValue row.average_score "average_score"
  let score_2024_10 ← cleanValue row.score_2024_10 "score_2024_10"
  let score_2024_q3 ← cleanValue row.score_2024_q3 "score_2024_q3"
  let score_2024_q2 ← cleanValue row.score_2024_q2 "score_2024_q2"
  let score_2024_q1 ← cleanValue row.score_2024_q1 "score_2024_q1"
  let score_2023 ← cleanValue row.score_2023 "score_2023"
  let album_date := albumDateVal row
  let language ← cleanValue row.language "language"
  let genre ← cleanValue row.genre "genre"
  let playlists_name ← cleanValue row.playlists_name "playlists_name"
  let energy ← cleanValue row.energy "energy"
  let youtube_url ← cleanValue row.youtube_url "youtube_url"
  let youtube_views ← cleanValue row.youtube_views "youtube_views"
  let spotify_url ← cleanValue row.spotify_url "spotify_url"
  let album_name ← cleanValue row.album_name "album_name"
  let song_data : SongRecord :=
    [("title", title), ("artist", artist),
     ("average_score", average_score), ("score_2024_10", score_2024_10),
     ("score_2024_q3", score_2024_q3), ("score_2024_q2", score_2024_q2),
     ("score_2024_q1", score_2024_q1), ("score_2023", score_2023),
     ("album_date", album_date), ("language", language),
     ("genre", genre), ("playlists_name", playlists_name),
     ("energy", energy), ("youtube_url", youtube_url),
     ("youtube_views", youtube_views), ("spotify_url", spotify_url),
     ("album_name", album_name)]
  return song_data.filter fun kv => decide (kv.2 ≠ PyVal.vNone)

/-- A captured failed record: `row.to_dict()` plus `error_message` and
`error_time` (main.py lines 204-210). -/
abbrev FailedRecord := SongRecord

def failedRecordOf (row : RawRow) (msg errTime : String) : FailedRecord :=
  rawFields row ++ [("error_message", .vStr msg), ("error_time", .vStr errTime)]

/-- Observable side effects of one `import_songs` run, in program order. -/
inductive ImportEvent where
  | rowStart (i : Nat) : ImportEvent
  | insertCall (i : Nat) : ImportEvent
  | saveCall : ImportEvent
  | summary (total succeeded failed : Nat) : ImportEvent
  deriving DecidableEq, Repr

/-- Loop state of `import_songs`: the two counters, the accumulated
`self.failed_records`, the binding state of the Python local `song_data`
(which survives across iterations and is read by the `except` handler), and
the emitted event trace. -/
structure LoopState where
  successful : Nat
  failed : Nat
  failedRecords : List FailedRecord
  songData : Option SongRecord
  events : List ImportEvent
  deriving DecidableEq, Repr

def initState : LoopState := ⟨0, 0, [], none, []⟩

/-- Embeds the `except Exception as e` handler of `import_songs` (main.py
lines 200-213).  The handler's second log line evaluates the f-string
`f"Datos problemáticos: {song_data}"`; when the local `song_data` has never
been assigned (the current row's `prepare_song_data` raised before any
earlier row bound it) this raises `UnboundLocalError`, which escapes the
per-row handler and aborts the loop.  Otherwise the handler appends
`row.to_dict()` plus `error_message = str(e)` and `error_time`, increments
the failure counter, and continues. -/
def handleRowExc (errTime : String) (row : RawRow) (e : PErr) (st : LoopState) :
    LoopState × Option PErr :=
  match st.songData with
  | none => (st, some unboundLocalSongData)
  | some _ =>
    ({ st with
        failed := st.failed + 1,
        failedRecords := st.failedRecords ++ [failedRecordOf row e.msg errTime] }, none)

/-- Embeds one iteration of the `for index, row in df.iterrows()` body of
`import_songs` (main.py lines 183-213).  `sink i rec` embeds
`self.supabase.table("songs").insert(song_data).execute()` for row `i`; the
`insertCall` event is emitted exactly when that call is reached.  Before the
insert, the progress log's `song_data['title']` lookup raises `KeyError`
when the cleaned record dropped the title.  The second component is `none`
when the loop continues to the next row, `some e` when exception `e`
escapes the row scope. -/
def processRow (sink : Nat → SongRecord → Except PErr Unit) (errTime : String)
    (i : Nat) (row : RawRow) (st : LoopState) : LoopState × Option PErr :=
  let st := { st with events := st.events ++ [ImportEvent.rowStart i] }
  match prepareSongData row with
  | .error e => handleRowExc errTime row e st
  | .ok sd =>
    let st := { st with songData := some sd }
    match sd.lookup "title" with
    | none => handleRowExc errTime row (keyError "title") st
    | some _ =>
      let st := { st with events := st.events ++ [ImportEvent.insertCall i] }
      match sink i sd with
      | .error e => handleRowExc errTime row e st
      | .ok _ => ({ st with successful := st.successful + 1 }, none)

/-- Embeds the row iteration of `import_songs`.  The source sequence is a
list of `Except` entries: `.ok row` is a row yielded by `df.iterrows()`,
`.error e` embeds the iteration mechanism itself raising at that point
(the iteration-level exception path of the spec). -/
def runRows (sink : Nat → SongRecord → Except PErr Unit) (errTime : String) :
    Nat → List (Except PErr RawRow) → LoopState → LoopState × Option PErr
  | _, [], st => (st, none)
  | _, .error e :: _, st => (st, some e)
  | i, .ok row :: rest, st =>
    match processRow sink errTime i row st with
    | (st1, some e) => (st1, some e)
    | (st1, none) => runRows sink errTime (i + 1) rest st1

/-- Embeds `SongDataImporter.import_songs` (main.py lines 174-229): run the
loop from the initial state; the outer `except Exception` only logs and
re-raises, and the `finally` block unconditionally calls
`save_failed_records` and then logs the summary of
total/successful/failed counts (embedded as the `saveCall` and `summary`
events).  The second component is the exception that propagates out of
`import_songs`, if any. -/
def importSongs (sink : Nat → SongRecord → Except PErr Unit) (errTime : String)
    (rows : List (Except PErr RawRow)) : LoopState × Option PErr :=
  match runRows sink errTime 0 rows initState with
  | (st, exc) =>
    ({ st with
        events := st.events ++
          [ImportEvent.saveCall, ImportEvent.summary rows.length st.successful st.failed] },
     exc)

/-- File format of a failure artifact. -/
inductive FileFormat where
  | csv
  | json
  deriving DecidableEq, Repr

/-- One file write performed by `save_failed_records`. -/
structure FileWrite where
  path : String
  format : FileFormat
  payload : List FailedRecord
  deriving DecidableEq, Repr

/-- Observable outcome of one `save_failed_records` call. -/
structure SaveResult where
  logs : List String
  writes : List FileWrite
  deriving DecidableEq, Repr

/-- Embeds `SongDataImporter.save_failed_records` (main.py lines 141-172).
`timestamp` is the single `datetime.now().strftime("%Y%m%d_%H%M%S")` value
computed once per call (line 149), so both artifact names share it.  The
`log_dir.mkdir(exist_ok=True)` side effect is not an artifact write and is
not modelled.  When `self.failed_records` is empty the function only logs
that there is nothing to save and returns without writing. -/
def saveFailedRecords (failedRecords : List FailedRecord) (timestamp : String) : SaveResult :=
  if failedRecords.isEmpty then
    ⟨["No hay registros fallidos para guardar."], []⟩
  else
    ⟨["Registros fallidos guardados"],
     [⟨"failed_imports/failed_records_" ++ timestamp ++ ".csv", .csv, failedRecords⟩,
      ⟨"failed_imports/failed_records_" ++ timestamp ++ ".json", .json, failedRecords⟩]⟩

/-- True when a row makes it past normalization to the insert attempt: its
`prepare_song_data` returns and the returned record still has a `title` key. -/
def rowPrepares (row : RawRow) : Bool :=
  match prepareSongData row with
  | .ok rec => (rec.lookup "title").isSome
  | .error _ => false

/-- Events emitted inside the row loop (as opposed to the `finally` block). -/
def loopEvent : ImportEvent → Bool
  | .rowStart _ => true
  | .insertCall _ => true
  | _ => false

/-- Event trace of `n` consecutive rows starting at index `i` that all reach
the insert call: each row contributes its `rowStart` and its `insertCall`. -/
def goodTrace : Nat → Nat → List ImportEvent
  | _, 0 => []
  | i, n + 1 => .rowStart i :: .insertCall i :: goodTrace (i + 1) n

/-- Indices of the rows the loop body started on, in trace order. -/
def rowStarts (es : List ImportEvent) : List Nat :=
  es.filterMap fun e => match e with | .rowStart i => some i | _ => none

/-- Indices of the rows whose sink insert was called, in trace order. -/
def insertCalls (es : List ImportEvent) : List Nat :=
  es.filterMap fun e => match e with | .insertCall i => some i | _ => none

/-- Concrete fixture: a fully valid row. -/
def wRow : RawRow :=
  ⟨.vStr "Song A", .vStr "Ana", .vFloat 5, .vNone, .vNone, .vNone, .vNone, .vNone,
   .vStr "2024-01-01", .vStr "es", .vStr "pop", .vNone, .vNone, .vNone,
   .vStr "2,000", .vNone, .vNone⟩

/-- Concrete fixture: a second valid row. -/
def wRow2 : RawRow := { wRow with title := .vStr "Song B", youtube_views := .vInt 7 }

/-- Concrete fixture: a row whose `youtube_views` text parses as an infinite
float, so `prepare_song_data` raises an uncaught `OverflowError`. -/
def wRowInf : RawRow := { wRow with youtube_views := .vStr "inf" }

/-- Concrete fixture: a row whose title cell is empty text, so the cleaned
record drops the `title` key. -/
def wRowNoTitle : RawRow := { wRow with title := .vStr "" }

/-- Concrete fixture: a sink that rejects row 0 and accepts every other row. -/
def wSink : Nat → SongRecord → Except PErr Unit :=
  fun j _ => if j = 0 then .error ⟨.other, "duplicate key value"⟩ else .ok ()

/-- Concrete fixture: the record `prepareSongData` returns for `wRow`. -/
def wRec : SongRecord :=
  [("title", .vStr "Song A"), ("artist", .vStr "Ana"), ("average_score", .vFloat 5),
   ("album_date", .vStr "2024-01-01"), ("language", .vStr "es"), ("genre", .vStr "pop"),
   ("youtube_views", .vInt 2000)]

/-- Concrete fixture: the record `prepareSongData` returns for `wRowNoTitle`
(no `title` key). -/
def wRecNoTitle : SongRecord :=
  [("artist", .vStr "Ana"), ("average_score", .vFloat 5),
   ("album_date", .vStr "2024-01-01"), ("language", .vStr "es"), ("genre", .vStr "pop"),
   ("youtube_views", .vInt 2000)]

/-- Concrete fixture: a row whose artist cell is a single space. -/
def wRowWs : RawRow := { wRow with artist := .vStr " " }

/-- Concrete fixture: the record `prepareSongData` returns for `wRowWs`
(artist kept with the empty-string value). -/
def wRecWs : SongRecord :=
  [("title", .vStr "Song A"), ("artist", .vStr ""), ("average_score", .vFloat 5),
   ("album_date", .vStr "2024-01-01"), ("language", .vStr "es"), ("genre", .vStr "pop"),
   ("youtube_views", .vInt 2000)]

/-! ### Character and trimming lemmas -/

lemma isDig_bounds {c : Char} (h : isDig c = true) : 48 ≤ c.toNat ∧ c.toNat ≤ 57 := by
  simpa [isDig, Bool.and_eq_true, decide_eq_true_eq] using h

lemma ne_of_isDig {c d : Char} (hc : isDig c = true) (hd : isDig d = false) : c ≠ d := by
  intro e
  subst e
  simp [hc] at hd

lemma ws_false_of_isDig {c : Char} (h : isDig c = true) : c.isWhitespace = false := by
  obtain ⟨h1, h2⟩ := isDig_bounds h
  simp only [Char.isWhitespace, Bool.or_eq_false_iff, decide_eq_false_iff_not]
  refine ⟨⟨⟨?_, ?_⟩, ?_⟩, ?_⟩ <;>
    · intro e
      subst e
      exact absurd h1 (by decide)

lemma toLower_of_isDig {c : Char} (h : isDig c = true) : c.toLower = c := by
  obtain ⟨-, h2⟩ := isDig_bounds h
  simp only [Char.toLower, Char.toNat] at h2 ⊢
  rw [if_neg]
  omega

lemma trimBoth_eq_self (l : List Char) (h : ∀ c ∈ l, c.isWhitespace = false) :
    trimBoth l = l := by
  unfold trimBoth
  have h1 : l.dropWhile Char.isWhitespace = l := by
    rw [List.dropWhile_eq_self_iff]
    intro hl
    rw [h _ (List.get_mem _ _ _)]
    decide
  have h2 : l.reverse.dropWhile Char.isWhitespace = l.reverse := by
    rw [List.dropWhile_eq_self_iff]
    intro hl
    rw [h _ (List.mem_reverse.mp (List.get_mem _ _ _))]
    decide
  rw [h1, h2, List.reverse_reverse]

lemma trimBoth_idem (l : List Char) : trimBoth (trimBoth l) = trimBoth l := by
  have key : ∀ m : List Char, m.dropWhile Char.isWhitespace = m →
      (List.rdropWhile Char.isWhitespace m).dropWhile Char.isWhitespace
        = List.rdropWhile Char.isWhitespace m := by
    intro m hm
    rw [List.dropWhile_eq_self_iff]
    intro hl
    obtain ⟨t, ht⟩ := List.rdropWhile_prefix Char.isWhitespace m
    have hlen : 0 < m.length := by
      rw [← ht, List.length_append]
      omega
    have hq : (List.rdropWhile Char.isWhitespace m ++ t)[0]?
        = (List.rdropWhile Char.isWhitespace m)[0]? := List.getElem?_append_left hl
    rw [ht, List.getElem?_eq_getElem hlen, List.getElem?_eq_getElem hl] at hq
    injection hq with hq
    have h0 := (List.dropWhile_eq_self_iff.mp hm) hlen
    simp only [List.get_eq_getElem] at h0 ⊢
    rw [← hq]
    exact h0
  show List.rdropWhile Char.isWhitespace
      ((List.rdropWhile Char.isWhitespace
        (l.dropWhile Char.isWhitespace)).dropWhile Char.isWhitespace)
    = List.rdropWhile Char.isWhitespace (l.dropWhile Char.isWhitespace)
  rw [key _ (List.dropWhile_idempotent _ _), List.rdropWhile_idempotent]

lemma pyStrip_idem (s : String) : pyStrip (pyStrip s) = pyStrip s := by
  show String.mk (trimBoth (trimBoth s.data)) = String.mk (trimBoth s.data)
  exact congrArg String.mk (trimBoth_idem s.data)

lemma pyStrip_all_ws (s : String) (h : ∀ c ∈ s.data, c.isWhitespace = true) :
    pyStrip s = "" := by
  have ht : trimBoth s.data = [] := by
    unfold trimBoth
    have h1 : s.data.dropWhile Char.isWhitespace = [] := by
      rw [List.dropWhile_eq_nil_iff]
      exact fun x hx => by simp [h x hx]
    rw [h1]
    rfl
  show String.mk (trimBoth s.data) = ""
  rw [ht]

/-! ### Properties of `cleanValue` -/

lemma cleanValue_ne_yv (v : PyVal) (f : String) (hf : f ≠ "youtube_views") :
    cleanValue v f = .ok (cleanValueT v) := by
  by_cases h : (pyIsNA v || pyEqEmptyStr v) = true
  · simp [cleanValue, cleanValueT, h]
  · simp [cleanValue, cleanValueT, h, hf]

/-- Claim C5 (counterexample): the single space string cleans to the empty string
`""`, which is itself a value that `clean_value` can emit into a normalized
record, yet re-cleaning `""` yields `None` instead of `""`; normalization is
therefore not idempotent on its full output range. -/
theorem clean_value_idempotence_fails_on_empty :
    cleanValue (.vStr " ") "artist" = .ok (.vStr "") ∧
    cleanValue (.vStr "") "artist" = .ok .vNone ∧
    PyVal.vStr "" ≠ PyVal.vNone := by decide

/-- Claim C5 (amended): re-cleaning any cleaned value with the same field name
returns it unchanged, except for the cleaned value `""` (produced from
whitespace-only text), which re-cleans to `None` because of the
`value == ""` guard. -/
theorem clean_value_idempotent_on_nonempty (u : PyVal) (f : String) (v : PyVal)
    (h : cleanValue u f = .ok v) (hv : v ≠ .vStr "") :
    cleanValue v f = .ok v := by
  unfold cleanValue at h
  by_cases hg : (pyIsNA u || pyEqEmptyStr u) = true
  · rw [if_pos hg] at h
    injection h with h
    subst h
    rfl
  · rw [if_neg hg] at h
    by_cases hf : f = "youtube_views"
    · subst hf
      rw [if_pos rfl] at h
      cases hn : cleanNumber u with
      | error e =>
        rw [hn] at h
        exact absurd h (by simp [Except.map])
      | ok o =>
        rw [hn] at h
        simp only [Except.map] at h
        injection h with h
        subst h
        cases o with
        | none => rfl
        | some n => rfl
    · rw [if_neg hf] at h
      injection h with h
      subst h
      cases u with
      | vNone => simp [pyIsNA] at hg
      | vNaN => simp [pyIsNA] at hg
      | vInt n =>
        rw [cleanValue_ne_yv _ _ hf]
        rfl
      | vFloat q =>
        rw [cleanValue_ne_yv _ _ hf]
        rfl
      | vStr s =>
        have hs : pyStrip s ≠ "" := by
          intro e
          apply hv
          show PyVal.vStr (pyStrip s) = .vStr ""
          rw [e]
        rw [cleanValue_ne_yv _ _ hf]
        show Except.ok (cleanValueT (.vStr (pyStrip s))) = .ok (.vStr (pyStrip s))
        simp [cleanValueT, pyIsNA, pyEqEmptyStr, hs, nvClean, pyStr, pyStrip_idem]

theorem clean_value_idempotent_on_nonempty_witness :
    cleanValue (.vStr "a") "artist" = .ok (.vStr "a") :=
  clean_value_idempotent_on_nonempty (.vStr " a ") "artist" (.vStr "a")
    (by decide) (by decide)

/-- Claim C7 (code bug exhibit): `clean_value` does return `None` on absent,
NaN and empty-text inputs, but it is not total: on the view-count field a
text that parses as an infinite float (for example `"inf"`) makes
`int(float(cleaned))` raise `OverflowError`, which the
`except (ValueError, TypeError)` clause of `clean_number` does not catch,
so the exception escapes `clean_value`. -/
theorem clean_value_raises_overflow_on_inf :
    (∀ f : String, cleanValue .vNone f = .ok .vNone ∧ cleanValue .vNaN f = .ok .vNone ∧
        cleanValue (.vStr "") f = .ok .vNone) ∧
    cleanValue (.vStr "inf") "youtube_views" =
      .error ⟨.overflowError, "cannot convert float infinity to integer"⟩ := by
  refine ⟨fun f => ⟨rfl, rfl, rfl⟩, by decide⟩

/-! ### Properties of `prepareSongData` -/

/-- Characterization: `prepareSongData` returns the null-filtered `songEntries` dict, with the
sole fallible step being the `youtube_views` cleaning. -/
lemma prepare_eq (row : RawRow) :
    prepareSongData row =
      match cleanValue row.youtube_views "youtube_views" with
      | .error e => .error e
      | .ok yv => .ok ((songEntries row yv).filter fun kv => decide (kv.2 ≠ PyVal.vNone)) := by
  unfold prepareSongData
  cases hyv : cleanValue row.youtube_views "youtube_views" with
  | error e => simp [cleanValue_ne_yv, hyv, songEntries, bind, Except.bind]
  | ok yv => simp [cleanValue_ne_yv, hyv, songEntries, bind, Except.bind, pure, Except.pure]

/-- Claim C4: every record returned by `prepare_song_data` contains no key whose
value is null — the final dict comprehension keeps only non-`None` values,
so a field whose cleaned value is null is absent from the record. -/
theorem prepare_song_data_no_null (row : RawRow) (rec : SongRecord)
    (h : prepareSongData row = .ok rec) :
    ∀ kv ∈ rec, kv.2 ≠ PyVal.vNone := by
  rw [prepare_eq] at h
  cases hyv : cleanValue row.youtube_views "youtube_views" with
  | error e =>
    rw [hyv] at h
    exact Except.noConfusion h
  | ok yv =>
    rw [hyv] at h
    injection h with h
    subst h
    intro kv hm
    simpa using (List.mem_filter.mp hm).2

theorem prepare_song_data_no_null_witness :
    ("title", PyVal.vStr "Song A").2 ≠ PyVal.vNone :=
  prepare_song_data_no_null wRow wRec (by decide) ("title", PyVal.vStr "Song A") (by decide)

/-- Claim C10: a non-empty whitespace-only text cell on a text field other than
the view-count field cleans to the empty string `""` (via
`str(value).strip()`), not to `None`; the null-drop filter of
`prepare_song_data` therefore keeps the key with value `""`. -/
theorem whitespace_only_text_kept_as_empty :
    (∀ (s f : String), s ≠ "" → (∀ c ∈ s.data, c.isWhitespace = true) →
        f ≠ "youtube_views" → cleanValue (.vStr s) f = .ok (.vStr "")) ∧
    (∀ (s : String) (row : RawRow) (rec : SongRecord), s ≠ "" →
        (∀ c ∈ s.data, c.isWhitespace = true) → row.artist = .vStr s →
        prepareSongData row = .ok rec → ("artist", PyVal.vStr "") ∈ rec) := by
  have hT : ∀ s : String, s ≠ "" → (∀ c ∈ s.data, c.isWhitespace = true) →
      cleanValueT (.vStr s) = .vStr "" := by
    intro s hs hw
    simp [cleanValueT, pyIsNA, pyEqEmptyStr, hs, nvClean, pyStr, pyStrip_all_ws s hw]
  constructor
  · intro s f hs hw hf
    rw [cleanValue_ne_yv _ _ hf, hT s hs hw]
  · intro s row rec hs hw ha h
    rw [prepare_eq] at h
    cases hyv : cleanValue row.youtube_views "youtube_views" with
    | error e =>
      rw [hyv] at h
      exact Except.noConfusion h
    | ok yv =>
      rw [hyv] at h
      injection h with h
      subst h
      have hart : cleanValueT row.artist = .vStr "" := by
        rw [ha]
        exact hT s hs hw
      apply List.mem_filter.mpr
      refine ⟨?_, by decide⟩
      simp [songEntries, hart]

theorem whitespace_only_text_kept_as_empty_witness :
    cleanValue (.vStr " ") "language" = .ok (.vStr "") ∧
    ("artist", PyVal.vStr "") ∈ wRecWs :=
  ⟨whitespace_only_text_kept_as_empty.1 " " "language" (by decide) (by decide) (by decide),
   whitespace_only_text_kept_as_empty.2 " " wRowWs wRecWs (by decide) (by decide)
     (by decide) (by decide)⟩

/-! ### Lookup lemmas for the dropped-title path -/

lemma lookup_none_of_keys (k : String) (l : SongRecord) (h : ∀ kv ∈ l, kv.1 ≠ k) :
    l.lookup k = none := by
  induction l with
  | nil => rfl
  | cons a t ih =>
    obtain ⟨a1, a2⟩ := a
    have ha : a1 ≠ k := h (a1, a2) (List.mem_cons_self _ _)
    have hb : (k == a1) = false := beq_eq_false_iff_ne.mpr (Ne.symm ha)
    simp only [List.lookup, hb]
    exact ih fun kv hm => h kv (List.mem_cons_of_mem _ hm)

lemma lookup_filter_title (row : RawRow) (yv : PyVal)
    (hT : cleanValueT row.title = .vNone) :
    ((songEntries row yv).filter fun kv => decide (kv.2 ≠ PyVal.vNone)).lookup "title"
      = none := by
  apply lookup_none_of_keys
  intro kv hm
  have h2 := List.mem_filter.mp hm
  have hmem := h2.1
  have hfilt := h2.2
  simp only [songEntries, hT, List.mem_cons, List.not_mem_nil, or_false] at hmem
  rcases hmem with rfl | rfl | rfl | rfl | rfl | rfl | rfl | rfl | rfl | rfl | rfl | rfl |
    rfl | rfl | rfl | rfl | rfl
  · exact absurd hfilt (by decide)
  all_goals simp

/-- Claim C9: when a row's title cell is null or empty text, `prepare_song_data`
drops the `title` key, so the pre-insert progress log's
`song_data['title']` lookup raises `KeyError` inside the per-row scope:
the sink insert is never called for that row (no `insertCall` event is
emitted), the row is appended to `failed_records` with the `KeyError`
message, the failure counter is incremented, and the loop continues
(second component `none`). -/
theorem dropped_title_fails_before_insert (sink : Nat → SongRecord → Except PErr Unit)
    (t : String) (i : Nat) (row : RawRow) (st : LoopState) (rec : SongRecord)
    (hp : prepareSongData row = .ok rec)
    (ht : (pyIsNA row.title || pyEqEmptyStr row.title) = true) :
    processRow sink t i row st =
      ({ st with failed := st.failed + 1,
                 failedRecords := st.failedRecords ++ [failedRecordOf row (keyErrMsg "title") t],
                 songData := some rec,
                 events := st.events ++ [.rowStart i] }, none) := by
  have hT : cleanValueT row.title = .vNone := by
    simp [cleanValueT, ht]
  have hlook : rec.lookup "title" = none := by
    rw [prepare_eq] at hp
    cases hyv : cleanValue row.youtube_views "youtube_views" with
    | error e =>
      rw [hyv] at hp
      exact Except.noConfusion hp
    | ok yv =>
      rw [hyv] at hp
      injection hp with hp
      subst hp
      exact lookup_filter_title row yv hT
  unfold processRow
  rw [hp]
  dsimp only
  rw [hlook]
  rfl

theorem dropped_title_fails_before_insert_witness :
    processRow wSink "T" 0 wRowNoTitle initState =
      ({ initState with failed := 1,
                        failedRecords := [failedRecordOf wRowNoTitle (keyErrMsg "title") "T"],
                        songData := some wRecNoTitle,
                        events := [.rowStart 0] }, none) :=
  dropped_title_fails_before_insert wSink "T" 0 wRowNoTitle initState wRecNoTitle
    (by decide) (by decide)

/-! ### Parsing lemmas for digit strings -/

lemma splitOnceBy_none (p : Char → Bool) (l : List Char) (h : ∀ c ∈ l, p c = false) :
    splitOnceBy p l = (l, none) := by
  induction l with
  | nil => rfl
  | cons c cs ih =>
    have hc := h c (List.mem_cons_self _ _)
    simp [splitOnceBy, hc, ih fun d hd => h d (List.mem_cons_of_mem _ hd)]

lemma takeSign_no_sign (c : Char) (cs : List Char) (h1 : c ≠ '+') (h2 : c ≠ '-') :
    takeSign (c :: cs) = (false, c :: cs) := by
  simp [takeSign, h1, h2]

lemma map_toLower_digits (l : List Char) (h : ∀ c ∈ l, isDig c = true) :
    l.map Char.toLower = l := by
  induction l with
  | nil => rfl
  | cons c cs ih =>
    rw [List.map_cons, toLower_of_isDig (h c (List.mem_cons_self _ _)),
      ih fun d hd => h d (List.mem_cons_of_mem _ hd)]

lemma digits_list_ne (l m : List Char) (h : ∀ c ∈ l, isDig c = true)
    (c0 : Char) (hm : c0 ∈ m) (hc : isDig c0 = false) : l ≠ m := by
  intro e
  subst e
  rw [h c0 hm] at hc
  exact Bool.noConfusion hc

/-- A non-empty all-digit string parses as the finite decimal with that
digit value and exponent zero. -/
lemma pyFloat_digits (t : String) (h1 : t.data ≠ [])
    (h2 : ∀ c ∈ t.data, isDig c = true) :
    pyFloatOfString t = some (.fin (digitsToNat t.data : Int) 0) := by
  rcases hd : t.data with _ | ⟨c, cs⟩
  · exact absurd hd h1
  · have h2' : ∀ x ∈ c :: cs, isDig x = true := hd ▸ h2
    have hws : ∀ x ∈ t.data, x.isWhitespace = false := fun x hx =>
      ws_false_of_isDig (h2 x hx)
    have htrim : trimBoth t.data = c :: cs := by
      rw [trimBoth_eq_self _ hws, hd]
    have hc := h2' c (List.mem_cons_self _ _)
    have hsign : takeSign (c :: cs) = (false, c :: cs) :=
      takeSign_no_sign c cs (ne_of_isDig hc (by decide)) (ne_of_isDig hc (by decide))
    have hlower : (c :: cs).map Char.toLower = c :: cs := map_toLower_digits _ h2'
    have hne1 : (c :: cs) ≠ "inf".data := digits_list_ne _ _ h2' 'i' (by decide) (by decide)
    have hne2 : (c :: cs) ≠ "infinity".data := digits_list_ne _ _ h2' 'i' (by decide) (by decide)
    have hne3 : (c :: cs) ≠ "nan".data := digits_list_ne _ _ h2' 'n' (by decide) (by decide)
    have hexp : splitOnceBy isExpChar (c :: cs) = (c :: cs, none) := by
      refine splitOnceBy_none _ _ fun d hd2 => ?_
      have hdd := h2' d hd2
      simp only [isExpChar, Bool.or_eq_false_iff, decide_eq_false_iff_not]
      exact ⟨@ne_of_isDig d 'e' hdd (by decide), @ne_of_isDig d 'E' hdd (by decide)⟩
    have hdot : splitOnceBy (fun x => decide (x = '.')) (c :: cs) = (c :: cs, none) :=
      splitOnceBy_none _ _ fun d hd2 =>
        decide_eq_false (ne_of_isDig (h2' d hd2) (by decide))
    have hall : allDigits (c :: cs) = true := by
      simp only [allDigits, List.all_eq_true]
      exact fun x hx => h2' x hx
    have hmant : parseMantissa (c :: cs) = some (digitsToNat (c :: cs), 0) := by
      simp [parseMantissa, hdot, hall]
    simp only [pyFloatOfString, htrim, hsign, hlower, hexp, hmant,
      decide_eq_false hne1, decide_eq_false hne2, decide_eq_false hne3,
      Bool.or_self, Bool.false_or, if_false, Bool.false_eq_true, ite_false]
    rw [if_neg hne3]
    simp

/-- Claim C6: on a text made of decimal digits and thousands-separator commas (or
interior spaces), `clean_number` returns exactly the integer obtained by
deleting the separators (the `< 2 ^ 53` bound confines the statement to the
range where the exact-decimal embedding of `float` coincides with binary64);
native ints pass through, native finite floats truncate toward zero, and a
text whose separator-stripped form fails to parse as a float yields `None`
without raising. -/
theorem clean_number_semantics :
    (∀ s : String, (stripCommasSpaces s).data ≠ [] →
        (∀ c ∈ (stripCommasSpaces s).data, isDig c = true) →
        digitsToNat (stripCommasSpaces s).data < 2 ^ 53 →
        cleanNumber (.vStr s) = .ok (some (digitsToNat (stripCommasSpaces s).data : Int))) ∧
    (∀ n : Int, cleanNumber (.vInt n) = .ok (some n)) ∧
    (∀ q : Rat, cleanNumber (.vFloat q) = .ok (some (ratTrunc q))) ∧
    (∀ s : String, s ≠ "" → pyFloatOfString (stripCommasSpaces s) = none →
        cleanNumber (.vStr s) = .ok none) := by
  refine ⟨?_, fun n => rfl, fun q => rfl, ?_⟩
  · intro s hne hdig hbound
    have hs : s ≠ "" := by
      intro e
      subst e
      exact hne rfl
    unfold cleanNumber
    rw [if_neg (by simp [pyIsNA, pyEqEmptyStr, hs])]
    dsimp only
    rw [pyFloat_digits _ hne hdig]
    simp [decTrunc]
  · intro s hs hparse
    unfold cleanNumber
    rw [if_neg (by simp [pyIsNA, pyEqEmptyStr, hs])]
    dsimp only
    rw [hparse]

theorem clean_number_semantics_witness :
    cleanNumber (.vStr "1,234,567") = .ok (some 1234567) ∧
    cleanNumber (.vInt 42) = .ok (some 42) ∧
    cleanNumber (.vStr "abc") = .ok none := by
  refine ⟨?_, clean_number_semantics.2.1 42, ?_⟩
  · exact (clean_number_semantics.1 "1,234,567" (by decide) (by decide)
      (by decide)).trans (by decide)
  · exact clean_number_semantics.2.2.2 "abc" (by decide) (by decide)

/-! ### Loop lemmas for `importSongs` -/

lemma rowPrepares_elim (row : RawRow) (h : rowPrepares row = true) :
    ∃ rec v, prepareSongData row = .ok rec ∧ rec.lookup "title" = some v := by
  unfold rowPrepares at h
  cases hp : prepareSongData row with
  | error e =>
    rw [hp] at h
    exact Bool.noConfusion h
  | ok rec =>
    rw [hp] at h
    dsimp only at h
    cases hl : rec.lookup "title" with
    | none =>
      rw [hl] at h
      exact Bool.noConfusion h
    | some v => exact ⟨rec, v, rfl, hl⟩

/-- A row that prepares and whose insert succeeds: one success, events
`rowStart` then `insertCall`, loop continues. -/
lemma processRow_ok (sink : Nat → SongRecord → Except PErr Unit) (t : String) (i : Nat)
    (row : RawRow) (st : LoopState) (rec : SongRecord) (v : PyVal)
    (hp : prepareSongData row = .ok rec) (hl : rec.lookup "title" = some v)
    (hs : sink i rec = .ok ()) :
    processRow sink t i row st =
      ({ st with successful := st.successful + 1, songData := some rec,
                 events := st.events ++ [.rowStart i, .insertCall i] }, none) := by
  unfold processRow
  rw [hp]
  dsimp only
  rw [hl]
  dsimp only
  rw [hs]
  simp [List.append_assoc]

/-- A row that prepares but whose insert raises: one failure recorded with
the raised message, events `rowStart` then `insertCall`, loop continues
(the handler finds `song_data` bound, since `prepare_song_data` just
assigned it). -/
lemma processRow_insert_fail (sink : Nat → SongRecord → Except PErr Unit) (t : String)
    (i : Nat) (row : RawRow) (st : LoopState) (rec : SongRecord) (v : PyVal) (e : PErr)
    (hp : prepareSongData row = .ok rec) (hl : rec.lookup "title" = some v)
    (hs : sink i rec = .error e) :
    processRow sink t i row st =
      ({ st with failed := st.failed + 1,
                 failedRecords := st.failedRecords ++ [failedRecordOf row e.msg t],
                 songData := some rec,
                 events := st.events ++ [.rowStart i, .insertCall i] }, none) := by
  unfold processRow
  rw [hp]
  dsimp only
  rw [hl]
  dsimp only
  rw [hs]
  dsimp only [handleRowExc]
  simp [List.append_assoc]

/-- Running a block of rows that all prepare and whose inserts all succeed:
the success counter advances by the block length, nothing is recorded as
failed, and the trace extends by the block's `goodTrace`. -/
lemma runRows_all_ok (sink : Nat → SongRecord → Except PErr Unit) (t : String) :
    ∀ (rs : List RawRow) (i : Nat) (st : LoopState),
      (∀ row ∈ rs, rowPrepares row = true) →
      (∀ j rec, i ≤ j → j < i + rs.length → sink j rec = .ok ()) →
      ∃ o, runRows sink t i (rs.map .ok) st =
        ({ st with successful := st.successful + rs.length, songData := o,
                   events := st.events ++ goodTrace i rs.length }, none) := by
  intro rs
  induction rs with
  | nil =>
    intro i st _ _
    exact ⟨st.songData, by simp [runRows, goodTrace]⟩
  | cons row rest ih =>
    intro i st h1 h2
    obtain ⟨rec, v, hp, hl⟩ := rowPrepares_elim row (h1 row (List.mem_cons_self _ _))
    have hs : sink i rec = .ok () :=
      h2 i rec (Nat.le_refl _) (by simp only [List.length_cons]; omega)
    obtain ⟨o, ho⟩ := ih (i + 1)
      ({ st with successful := st.successful + 1, songData := some rec,
                 events := st.events ++ [.rowStart i, .insertCall i] })
      (fun r hr => h1 r (List.mem_cons_of_mem _ hr))
      (fun j rec2 hj1 hj2 => h2 j rec2 (by omega)
        (by simp only [List.length_cons]; omega))
    refine ⟨o, ?_⟩
    rw [List.map_cons]
    simp only [runRows]
    rw [processRow_ok sink t i row st rec v hp hl hs]
    dsimp only
    rw [ho]
    have harith : st.successful + 1 + rest.length = st.successful + (rest.length + 1) := by
      omega
    simp [goodTrace, List.append_assoc, harith]

/-- Splitting a run at a block boundary when the first block finishes
normally. -/
lemma runRows_append_ok (sink : Nat → SongRecord → Except PErr Unit) (t : String) :
    ∀ (xs ys : List (Except PErr RawRow)) (i : Nat) (st st1 : LoopState),
      runRows sink t i xs st = (st1, none) →
      runRows sink t i (xs ++ ys) st = runRows sink t (i + xs.length) ys st1 := by
  intro xs
  induction xs with
  | nil =>
    intro ys i st st1 h
    simp only [runRows] at h
    injection h with h1 _
    subst h1
    simp [runRows]
  | cons x rest ih =>
    intro ys i st st1 h
    cases x with
    | error e =>
      simp only [runRows] at h
      exact absurd h (by simp)
    | ok row =>
      rw [List.cons_append]
      simp only [runRows] at h ⊢
      cases hpr : processRow sink t i row st with
      | mk st2 opt =>
        rw [hpr] at h
        cases opt with
        | some e2 => simp at h
        | none =>
          dsimp only at h ⊢
          rw [ih ys (i + 1) st2 st1 h]
          have harith : i + 1 + rest.length = i + (rest.length + 1) := by omega
          rw [List.length_cons, harith]

lemma rowStarts_append (a b : List ImportEvent) :
    rowStarts (a ++ b) = rowStarts a ++ rowStarts b := by
  simp [rowStarts]

lemma insertCalls_append (a b : List ImportEvent) :
    insertCalls (a ++ b) = insertCalls a ++ insertCalls b := by
  simp [insertCalls]

lemma rowStarts_goodTrace (n : Nat) : ∀ i : Nat, rowStarts (goodTrace i n) = List.range' i n := by
  induction n with
  | zero => intro i; rfl
  | succ m ih =>
    intro i
    rw [List.range'_succ]
    simp [goodTrace, rowStarts, List.filterMap_cons]
    exact ih (i + 1)

lemma insertCalls_goodTrace (n : Nat) :
    ∀ i : Nat, insertCalls (goodTrace i n) = List.range' i n := by
  induction n with
  | zero => intro i; rfl
  | succ m ih =>
    intro i
    rw [List.range'_succ]
    simp [goodTrace, insertCalls, List.filterMap_cons]
    exact ih (i + 1)

/-- Claim C1: with every row reaching its insert attempt and the sink raising on
exactly row `k` (with message `e.msg ≠ ""`) while every other insert
succeeds, `import_songs` still runs the loop body and the insert call for
every one of the `N` rows in source order (`rowStarts`/`insertCalls` are
exactly `0..N-1`), finishes normally with `N-1` successes and `1` failure,
and records exactly one FailedRecord — row `k`'s original raw fields plus
the raised message — before the final save/summary. -/
theorem import_songs_isolates_insert_failure
    (sink : Nat → SongRecord → Except PErr Unit) (t : String)
    (rows : List RawRow) (k : Nat) (e : PErr)
    (hk : k < rows.length)
    (hrows : ∀ row ∈ rows, rowPrepares row = true)
    (hok : ∀ j rec, j ≠ k → sink j rec = .ok ())
    (hbad : ∀ rec, sink k rec = .error e)
    (hmsg : e.msg ≠ "") :
    ∃ st : LoopState,
      importSongs sink t (rows.map .ok) = (st, none) ∧
      st.successful = rows.length - 1 ∧
      st.failed = 1 ∧
      st.failedRecords = [failedRecordOf (rows.get ⟨k, hk⟩) e.msg t] ∧
      rowStarts st.events = List.range rows.length ∧
      insertCalls st.events = List.range rows.length ∧
      (∃ pre, st.events =
        pre ++ [.saveCall, .summary rows.length (rows.length - 1) 1]) ∧
      e.msg ≠ "" := by
  have hsplit : rows = rows.take k ++ rows.get ⟨k, hk⟩ :: rows.drop (k + 1) := by
    conv_lhs => rw [← List.take_append_drop k rows]
    rw [List.drop_eq_getElem_cons hk, List.get_eq_getElem]
  have hlt : (rows.take k).length = k := by
    rw [List.length_take]
    omega
  obtain ⟨oA, hA⟩ := runRows_all_ok sink t (rows.take k) 0 initState
    (fun r hr => hrows r (List.mem_of_mem_take hr))
    (fun j rec hj1 hj2 => hok j rec (by omega))
  have hA' : runRows sink t 0 ((rows.take k).map .ok) initState =
      ({ successful := k, failed := 0, failedRecords := [], songData := oA,
         events := goodTrace 0 k }, none) := by
    rw [hA]
    simp [initState, hlt]
  obtain ⟨recK, vK, hpK, hlK⟩ :=
    rowPrepares_elim _ (hrows _ (List.get_mem rows k hk))
  have hB : processRow sink t k (rows.get ⟨k, hk⟩)
      ⟨k, 0, [], oA, goodTrace 0 k⟩ =
      (⟨k, 1, [failedRecordOf (rows.get ⟨k, hk⟩) e.msg t], some recK,
        goodTrace 0 k ++ [.rowStart k, .insertCall k]⟩, none) := by
    rw [processRow_insert_fail sink t k _ _ recK vK e hpK hlK (hbad recK)]
    rfl
  obtain ⟨oC, hC⟩ := runRows_all_ok sink t (rows.drop (k + 1)) (k + 1)
    ⟨k, 1, [failedRecordOf (rows.get ⟨k, hk⟩) e.msg t], some recK,
      goodTrace 0 k ++ [.rowStart k, .insertCall k]⟩
    (fun r hr => hrows r (List.mem_of_mem_drop hr))
    (fun j rec hj1 hj2 => hok j rec (by omega))
  have hdlen : (rows.drop (k + 1)).length = rows.length - (k + 1) :=
    List.length_drop _ _
  have harith : k + (rows.length - (k + 1)) = rows.length - 1 := by omega
  have hlenA : ((rows.take k).map (Except.ok : RawRow → Except PErr RawRow)).length = k := by
    rw [List.length_map]
    exact hlt
  have hrun : runRows sink t 0 (rows.map .ok) initState =
      ({ successful := rows.length - 1, failed := 1,
         failedRecords := [failedRecordOf (rows.get ⟨k, hk⟩) e.msg t],
         songData := oC,
         events := (goodTrace 0 k ++ [.rowStart k, .insertCall k])
                    ++ goodTrace (k + 1) (rows.length - (k + 1)) }, none) := by
    conv_lhs => rw [hsplit, List.map_append]
    rw [runRows_append_ok sink t _ _ _ _ _ hA', hlenA, Nat.zero_add, List.map_cons]
    simp only [runRows]
    rw [hB]
    dsimp only
    rw [hC]
    simp [hdlen, harith]
  have hrs : List.range' 0 k ++ k :: List.range' (k + 1) (rows.length - (k + 1))
      = List.range rows.length := by
    have h1 : k :: List.range' (k + 1) (rows.length - (k + 1))
        = List.range' k (rows.length - k) := by
      have h2 : rows.length - k = (rows.length - (k + 1)) + 1 := by omega
      rw [h2, List.range'_succ]
    rw [h1]
    have h3 := List.range'_append_1 0 k (rows.length - k)
    rw [Nat.zero_add] at h3
    rw [h3, List.range_eq_range']
    have h4 : rows.length - k + k = rows.length := by omega
    rw [h4]
  refine ⟨{ successful := rows.length - 1, failed := 1,
            failedRecords := [failedRecordOf (rows.get ⟨k, hk⟩) e.msg t],
            songData := oC,
            events := ((goodTrace 0 k ++ [.rowStart k, .insertCall k])
                        ++ goodTrace (k + 1) (rows.length - (k + 1)))
                      ++ [.saveCall, .summary rows.length (rows.length - 1) 1] },
    ?_, rfl, rfl, rfl, ?_, ?_, ?_, hmsg⟩
  · unfold importSongs
    rw [hrun]
    dsimp only
    rw [List.length_map]
  · show rowStarts (((goodTrace 0 k ++ [.rowStart k, .insertCall k])
        ++ goodTrace (k + 1) (rows.length - (k + 1)))
        ++ [.saveCall, .summary rows.length (rows.length - 1) 1]) = List.range rows.length
    rw [rowStarts_append, rowStarts_append, rowStarts_append,
      rowStarts_goodTrace k 0, rowStarts_goodTrace (rows.length - (k + 1)) (k + 1)]
    show (List.range' 0 k ++ [k]) ++ List.range' (k + 1) (rows.length - (k + 1)) ++ [] =
      List.range rows.length
    rw [List.append_nil, List.append_assoc]
    exact hrs
  · show insertCalls (((goodTrace 0 k ++ [.rowStart k, .insertCall k])
        ++ goodTrace (k + 1) (rows.length - (k + 1)))
        ++ [.saveCall, .summary rows.length (rows.length - 1) 1]) = List.range rows.length
    rw [insertCalls_append, insertCalls_append, insertCalls_append,
      insertCalls_goodTrace k 0, insertCalls_goodTrace (rows.length - (k + 1)) (k + 1)]
    show (List.range' 0 k ++ [k]) ++ List.range' (k + 1) (rows.length - (k + 1)) ++ [] =
      List.range rows.length
    rw [List.append_nil, List.append_assoc]
    exact hrs
  · exact ⟨_, rfl⟩

theorem import_songs_isolates_insert_failure_witness :
    ∃ st : LoopState,
      importSongs wSink "T" [.ok wRow, .ok wRow2] = (st, none) ∧
      st.successful = 1 ∧ st.failed = 1 ∧
      st.failedRecords = [failedRecordOf wRow "duplicate key value" "T"] := by
  obtain ⟨st, h1, h2, h3, h4, -⟩ :=
    import_songs_isolates_insert_failure wSink "T" [wRow, wRow2] 0
      ⟨.other, "duplicate key value"⟩ (by decide) (by decide)
      (fun j rec hj => by simp [wSink, hj])
      (fun rec => by simp [wSink]) (by decide)
  exact ⟨st, h1, by simpa using h2, h3, h4⟩

/-- Claim C2 (code bug exhibit): when `prepare_song_data` raises on a row before
any earlier row has bound the local `song_data` (here: the single-row batch
whose `youtube_views` text is `"inf"`, making normalization raise an
uncaught `OverflowError`), the `except` handler of `import_songs` itself
raises `UnboundLocalError` on its `f"Datos problemáticos: {song_data}"` log
line: no FailedRecord is appended, the failure counter stays `0`, and the
batch aborts with the exception after the `finally` save/summary — instead
of the claimed per-row FAILED transition. -/
theorem prepare_raise_aborts_batch :
    importSongs (fun _ _ => .ok ()) "T" [.ok wRowInf] =
      (⟨0, 0, [], none, [.rowStart 0, .saveCall, .summary 1 0 0]⟩,
       some unboundLocalSongData) := by
  decide

/-! ### Event-trace lemmas for the guaranteed-save property -/

lemma processRow_events (sink : Nat → SongRecord → Except PErr Unit) (t : String)
    (i : Nat) (row : RawRow) (st : LoopState) :
    ∃ d, (processRow sink t i row st).1.events = st.events ++ d ∧
      ∀ ev ∈ d, loopEvent ev = true := by
  unfold processRow handleRowExc
  dsimp only
  split
  · split
    · exact ⟨[.rowStart i], by simp, by simp [loopEvent]⟩
    · exact ⟨[.rowStart i], by simp, by simp [loopEvent]⟩
  · split
    · exact ⟨[.rowStart i], by simp, by simp [loopEvent]⟩
    · split
      · exact ⟨[.rowStart i, .insertCall i], by simp [List.append_assoc], by simp [loopEvent]⟩
      · exact ⟨[.rowStart i, .insertCall i], by simp [List.append_assoc], by simp [loopEvent]⟩

lemma runRows_events (sink : Nat → SongRecord → Except PErr Unit) (t : String) :
    ∀ (rows : List (Except PErr RawRow)) (i : Nat) (st : LoopState),
      ∃ d, (runRows sink t i rows st).1.events = st.events ++ d ∧
        ∀ ev ∈ d, loopEvent ev = true := by
  intro rows
  induction rows with
  | nil =>
    intro i st
    exact ⟨[], by simp [runRows], by simp⟩
  | cons x rest ih =>
    intro i st
    cases x with
    | error e => exact ⟨[], by simp [runRows], by simp⟩
    | ok row =>
      obtain ⟨d1, hd1, hl1⟩ := processRow_events sink t i row st
      simp only [runRows]
      cases hpr : processRow sink t i row st with
      | mk st1 opt =>
        rw [hpr] at hd1
        cases opt with
        | some e => exact ⟨d1, hd1, hl1⟩
        | none =>
          obtain ⟨d2, hd2, hl2⟩ := ih (i + 1) st1
          refine ⟨d1 ++ d2, ?_, ?_⟩
          · dsimp only
            rw [hd2, hd1, List.append_assoc]
          · intro ev hev
            rcases List.mem_append.mp hev with h | h
            · exact hl1 ev h
            · exact hl2 ev h

/-- Claim C3: on every exit of `import_songs` — rows exhausted, a row-scope
exception escaping (the `UnboundLocalError` path), or the iteration itself
raising — the `finally` block runs `save_failed_records` exactly once and
then logs the total/succeeded/failed summary: the event trace always ends
with exactly `[saveCall, summary]`, and no save or summary event occurs
anywhere earlier in the trace. -/
theorem save_failed_records_always_runs (sink : Nat → SongRecord → Except PErr Unit)
    (t : String) (rows : List (Except PErr RawRow)) :
    ∃ pre, (importSongs sink t rows).1.events =
        pre ++ [.saveCall, .summary rows.length (importSongs sink t rows).1.successful
                  (importSongs sink t rows).1.failed] ∧
      ∀ ev ∈ pre, (ev ≠ .saveCall ∧ ∀ a b c, ev ≠ .summary a b c) := by
  obtain ⟨d, hd, hl⟩ := runRows_events sink t rows 0 initState
  refine ⟨d, ?_, ?_⟩
  · unfold importSongs
    cases hrr : runRows sink t 0 rows initState with
    | mk st exc =>
      rw [hrr] at hd
      dsimp only at hd ⊢
      rw [hd]
      simp [initState]
  · intro ev hev
    have := hl ev hev
    cases ev with
    | rowStart j => exact ⟨by simp, fun a b c => by simp⟩
    | insertCall j => exact ⟨by simp, fun a b c => by simp⟩
    | saveCall => exact absurd this (by simp [loopEvent])
    | summary a b c => exact absurd this (by simp [loopEvent])

/-- Claim C8: `save_failed_records` writes nothing when the failure sequence is
empty (it only logs that there is nothing to save); otherwise it writes
exactly two artifacts, a CSV and a JSON, both named
`failed_records_<timestamp>` under `failed_imports/` with the same single
per-run timestamp component. -/
theorem save_failed_records_artifacts (fr : List FailedRecord) (ts : String) :
    (fr = [] → (saveFailedRecords fr ts).writes = [] ∧
        (saveFailedRecords fr ts).logs = ["No hay registros fallidos para guardar."]) ∧
    (fr ≠ [] → (saveFailedRecords fr ts).writes =
        [⟨"failed_imports/failed_records_" ++ ts ++ ".csv", .csv, fr⟩,
         ⟨"failed_imports/failed_records_" ++ ts ++ ".json", .json, fr⟩]) := by
  constructor
  · intro h
    subst h
    exact ⟨rfl, rfl⟩
  · intro h
    have he : fr.isEmpty = false := by
      cases fr with
      | nil => exact absurd rfl h
      | cons a l => rfl
    simp [saveFailedRecords, he]

theorem save_failed_records_artifacts_witness :
    (saveFailedRecords [] "TS").writes = [] ∧
    (saveFailedRecords [[("title", PyVal.vStr "x")]] "TS").writes =
      [⟨"failed_imports/failed_records_TS.csv", .csv, [[("title", PyVal.vStr "x")]]⟩,
       ⟨"failed_imports/failed_records_TS.json", .json, [[("title", PyVal.vStr "x")]]⟩] := by
  constructor
  · exact ((save_failed_records_artifacts [] "TS").1 rfl).1
  · exact ((save_failed_records_artifacts [[("title", PyVal.vStr "x")]] "TS").2
      (by simp)).trans (by decide)

end CsvToSupabase
